import Mathlib

/-
  Verification development for the Trip-Bahadur backend
  (src/backend/apiplanner.py).

  The file shallowly embeds the Python source: Python dict/list/JSON values
  become the inductive type Json below, the json.loads parser is modelled by
  jsonLoads, str.replace and str.strip by pyReplace and pyStrip, and the
  three functions of the source (generate_itinerary, handle_tool_calls,
  generate_itinerary_api) become Lean functions over these types.  Raised
  Python exceptions are modelled with Except; a try/except block becomes a
  match on the Except value.  The remote Groq model is an oracle parameter
  (a function from the prompt to either a raised error or a response text),
  so every theorem quantifies over all possible remote-model behaviours.
-/

namespace Planner

/-- Embedding of Python JSON values (the results of json.loads and the
dict/list literals built by apiplanner.py).  Numbers keep their source
lexeme, which is enough because no claim computes with numbers.  Objects
are association lists in insertion order; the source never builds an
object with duplicate keys. -/
inductive Json where
  | null : Json
  | bool (b : Bool) : Json
  | num (lexeme : String) : Json
  | str (s : String) : Json
  | arr (elems : List Json) : Json
  | obj (members : List (String × Json)) : Json

/-- Membership test for the Python expression key in dict.  Outcome values
in apiplanner.py are always dicts, and on a non-dict the handler would
raise; the handler only applies this to dicts, so false is a safe value. -/
def hasKey (j : Json) (k : String) : Bool :=
  match j with
  | Json.obj kvs => kvs.any (fun p => p.1 == k)
  | _ => false

/-- Lookup dict[key], defaulting to null; only used where hasKey was
checked first, mirroring the source. -/
def dictGet (j : Json) (k : String) : Json :=
  match j with
  | Json.obj kvs => ((List.lookup k kvs).getD Json.null)
  | _ => Json.null

/-- Characters for which the Python predicate str.isspace holds (the set
stripped by str.strip with no argument), listed by code point. -/
def pyIsSpace (c : Char) : Bool :=
  ([9, 10, 11, 12, 13, 28, 29, 30, 31, 32, 133, 160, 5760,
    8192, 8193, 8194, 8195, 8196, 8197, 8198, 8199, 8200, 8201, 8202,
    8232, 8233, 8239, 8287, 12288] : List Nat).contains c.toNat

/-- Embedding of the Python method str.strip with no argument: drop
whitespace characters from both ends. -/
def pyStrip (s : String) : String :=
  String.mk (((s.data.dropWhile pyIsSpace).reverse.dropWhile pyIsSpace).reverse)

/-- Replace every non-overlapping occurrence of the nonempty pattern p,
scanning left to right, by r; the characters of a replacement are not
rescanned, exactly as in the Python method str.replace.  The Nat argument
is fuel for structural recursion; every step consumes at least one input
character, so fuel equal to the input length is always enough and the
fuel-exhausted arm (which can only see the empty list) returns it. -/
def replaceAux (p r : List Char) : Nat → List Char → List Char
  | 0, s => s
  | _, [] => []
  | fuel + 1, c :: rest =>
    if List.isPrefixOf p (c :: rest) then
      r ++ replaceAux p r fuel (List.drop (p.length - 1) rest)
    else
      c :: replaceAux p r fuel rest

/-- Embedding of the Python method s.replace(pat, rep).  The source only
calls it with the nonempty literal patterns of apiplanner.py lines 86-88;
for an empty pattern (where Python interleaves rep everywhere) we return s
unchanged, a case the program never exercises. -/
def pyReplace (s pat rep : String) : String :=
  if pat.data.isEmpty then s
  else String.mk (replaceAux pat.data rep.data s.data.length s.data)

/-- Whitespace skipped by the Python json parser between tokens. -/
def jsonWs (c : Char) : Bool :=
  c == ' ' || c == '\t' || c == '\n' || c == '\r'

def skipWs (cs : List Char) : List Char := cs.dropWhile jsonWs

def hexVal (c : Char) : Option Nat :=
  if '0' ≤ c ∧ c ≤ '9' then some (c.toNat - 48)
  else if 'a' ≤ c ∧ c ≤ 'f' then some (c.toNat - 87)
  else if 'A' ≤ c ∧ c ≤ 'F' then some (c.toNat - 55)
  else none

/-- Body of a JSON string literal after the opening quote, with the escape
sequences accepted by the Python json module in strict mode; unescaped
control characters are rejected as Python does.  Error texts follow the
Python messages with the position suffix elided.  The Nat argument is
fuel for structural recursion; every step consumes at least one input
character, so any fuel above the input length is enough and the
fuel-exhausted arm is unreachable. -/
def parseStringBody : Nat → List Char → List Char → Except String (String × List Char)
  | 0, _, _ => Except.error "Unterminated string starting at"
  | _, [], _ => Except.error "Unterminated string starting at"
  | _ + 1, '"' :: rest, acc => Except.ok (String.mk acc.reverse, rest)
  | fuel + 1, '\\' :: 'u' :: h1 :: h2 :: h3 :: h4 :: rest, acc =>
    (match hexVal h1, hexVal h2, hexVal h3, hexVal h4 with
     | some a, some b, some c, some d =>
       parseStringBody fuel rest (Char.ofNat (((a * 16 + b) * 16 + c) * 16 + d) :: acc)
     | _, _, _, _ => Except.error "Invalid \\uXXXX escape")
  | fuel + 1, '\\' :: e :: rest, acc =>
    if e = '"' then parseStringBody fuel rest ('"' :: acc)
    else if e = '\\' then parseStringBody fuel rest ('\\' :: acc)
    else if e = '/' then parseStringBody fuel rest ('/' :: acc)
    else if e = 'b' then parseStringBody fuel rest (Char.ofNat 8 :: acc)
    else if e = 'f' then parseStringBody fuel rest (Char.ofNat 12 :: acc)
    else if e = 'n' then parseStringBody fuel rest ('\n' :: acc)
    else if e = 'r' then parseStringBody fuel rest ('\r' :: acc)
    else if e = 't' then parseStringBody fuel rest ('\t' :: acc)
    else Except.error "Invalid \\escape"
  | fuel + 1, c :: rest, acc =>
    if c.toNat < 32 then Except.error "Invalid control character"
    else parseStringBody fuel rest (c :: acc)

/-- Integer part of the number regex of the Python json module:
either a single 0, or a nonzero digit followed by digits. -/
def numIntPart (cs : List Char) : Option (List Char × List Char) :=
  match cs with
  | '0' :: rest => some (['0'], rest)
  | c :: rest =>
    if c.isDigit then some (c :: rest.takeWhile Char.isDigit, rest.dropWhile Char.isDigit)
    else none
  | [] => none

/-- Optional fractional part: a dot followed by at least one digit,
otherwise nothing is consumed (as the regex group is optional). -/
def numFracPart (cs : List Char) : List Char × List Char :=
  match cs with
  | '.' :: rest =>
    match rest.takeWhile Char.isDigit with
    | [] => ([], cs)
    | ds => ('.' :: ds, rest.dropWhile Char.isDigit)
  | _ => ([], cs)

/-- Optional exponent part: e or E, an optional sign, then digits,
otherwise nothing is consumed. -/
def numExpPart (cs : List Char) : List Char × List Char :=
  match cs with
  | e :: rest =>
    if e = 'e' ∨ e = 'E' then
      let sr : List Char × List Char :=
        match rest with
        | '+' :: r => (['+'], r)
        | '-' :: r => (['-'], r)
        | _ => ([], rest)
      match sr.2.takeWhile Char.isDigit with
      | [] => ([], cs)
      | ds => (e :: (sr.1 ++ ds), sr.2.dropWhile Char.isDigit)
    else ([], cs)
  | [] => ([], cs)

/-- Longest number (or NaN / Infinity constant) the Python json scanner
accepts at the head of the input, returned as its lexeme. -/
def takeNumberLexeme (cs : List Char) : Option (List Char × List Char) :=
  match cs with
  | 'N' :: 'a' :: 'N' :: rest => some (['N', 'a', 'N'], rest)
  | 'I' :: 'n' :: 'f' :: 'i' :: 'n' :: 'i' :: 't' :: 'y' :: rest =>
    some ("Infinity".data, rest)
  | '-' :: 'I' :: 'n' :: 'f' :: 'i' :: 'n' :: 'i' :: 't' :: 'y' :: rest =>
    some ("-Infinity".data, rest)
  | _ =>
    let sc : List Char × List Char :=
      match cs with
      | '-' :: r => (['-'], r)
      | _ => ([], cs)
    match numIntPart sc.2 with
    | none => none
    | some (ip, rest1) =>
      let fp := numFracPart rest1
      let ep := numExpPart fp.2
      some (sc.1 ++ ip ++ fp.1 ++ ep.1, ep.2)

/-- Parser position: at a value, inside the members of an object, or
inside the elements of an array (with the members or elements already
parsed).  Folding the three mutually recursive parsing functions of the
Python json scanner into one function over this mode keeps the recursion
structural in the fuel, so the parser reduces definitionally. -/
inductive PMode where
  | value : PMode
  | members (acc : List (String × Json)) : PMode
  | elems (acc : List Json) : PMode

/-- Recursive-descent parser mirroring the Python json scanner; the fuel
argument bounds recursion depth the way the CPython recursion limit does,
and jsonLoads supplies enough fuel for every input whose nesting depth is
at most its length.  In value mode the scanner dispatches on the first
nonspace character; in members mode it stands at a key inside an object;
in elems mode at a value inside an array. -/
def parseCore : Nat → PMode → List Char → Except String (Json × List Char)
  | 0, _, _ => Except.error "Maximum recursion depth exceeded"
  | fuel + 1, PMode.value, cs =>
    (match skipWs cs with
     | 'n' :: 'u' :: 'l' :: 'l' :: rest => Except.ok (Json.null, rest)
     | 't' :: 'r' :: 'u' :: 'e' :: rest => Except.ok (Json.bool true, rest)
     | 'f' :: 'a' :: 'l' :: 's' :: 'e' :: rest => Except.ok (Json.bool false, rest)
     | '"' :: rest =>
       (match parseStringBody (rest.length + 1) rest [] with
        | Except.error e => Except.error e
        | Except.ok (s, r) => Except.ok (Json.str s, r))
     | '{' :: rest =>
       (match skipWs rest with
        | '}' :: r2 => Except.ok (Json.obj [], r2)
        | cs2 => parseCore fuel (PMode.members []) cs2)
     | '[' :: rest =>
       (match skipWs rest with
        | ']' :: r2 => Except.ok (Json.arr [], r2)
        | cs2 => parseCore fuel (PMode.elems []) cs2)
     | other =>
       match takeNumberLexeme other with
       | some (lex, rest) => Except.ok (Json.num (String.mk lex), rest)
       | none => Except.error "Expecting value")
  | fuel + 1, PMode.members acc, cs =>
    (match cs with
     | '"' :: rest =>
       (match parseStringBody (rest.length + 1) rest [] with
        | Except.error e => Except.error e
        | Except.ok (key, rest2) =>
          match skipWs rest2 with
          | ':' :: rest3 =>
            (match parseCore fuel PMode.value rest3 with
             | Except.error e => Except.error e
             | Except.ok (v, rest4) =>
               match skipWs rest4 with
               | ',' :: rest5 =>
                 parseCore fuel (PMode.members (acc ++ [(key, v)])) (skipWs rest5)
               | '}' :: rest5 => Except.ok (Json.obj (acc ++ [(key, v)]), rest5)
               | _ => Except.error "Expecting , delimiter")
          | _ => Except.error "Expecting : delimiter")
     | _ => Except.error "Expecting property name enclosed in double quotes")
  | fuel + 1, PMode.elems acc, cs =>
    match parseCore fuel PMode.value cs with
    | Except.error e => Except.error e
    | Except.ok (v, rest) =>
      match skipWs rest with
      | ',' :: r2 => parseCore fuel (PMode.elems (acc ++ [v])) r2
      | ']' :: r2 => Except.ok (Json.arr (acc ++ [v]), r2)
      | _ => Except.error "Expecting , delimiter"

/-- Parse one JSON value, the entry point of the scanner. -/
def parseValue (fuel : Nat) (cs : List Char) : Except String (Json × List Char) :=
  parseCore fuel PMode.value cs

/-- Embedding of the Python call json.loads(s): parse one value, then
require only whitespace to remain, as the CPython decoder does.  An
Except.error models a raised json.JSONDecodeError. -/
def jsonLoads (s : String) : Except String Json :=
  match parseValue (2 * s.length + 4) s.data with
  | Except.error e => Except.error e
  | Except.ok (v, rest) =>
    match skipWs rest with
    | [] => Except.ok v
    | _ => Except.error "Extra data"

/-- Boolean success test for jsonLoads, used to state claims. -/
def parses (s : String) : Bool :=
  match jsonLoads s with
  | Except.ok _ => true
  | Except.error _ => false

/-- Payload of one entry of additional_kwargs["tool_calls"]: the fields the
source reads, tc["function"]["name"] and tc["function"]["arguments"]
(the arguments are a JSON text, still unparsed). -/
structure ToolCallFunction where
  name : String
  arguments : String

/-- One requested capability invocation tc, as read by handle_tool_calls. -/
structure ToolCall where
  function : ToolCallFunction

/-- Embedding of the langchain AIMessage, restricted to the three fields
apiplanner.py reads: content, the parsed tool_calls attribute (the handler
only tests its truthiness) and additional_kwargs["tool_calls"] (the list
handle_tool_calls iterates; an absent key and an empty list are both
falsy in Python and are both modelled by the empty list). -/
structure AIMessage where
  content : String
  tool_calls : List ToolCall
  additional_kwargs_tool_calls : List ToolCall

/-- Result of main_llm.bind_tools(tools).invoke(...): normally an
AIMessage; the source keeps an explicit branch for any other shape
(line 175), modelled by the second constructor. -/
inductive ChatResponse where
  | aiMessage (message : AIMessage) : ChatResponse
  | other : ChatResponse

/-- Exception raised by the remote-model integration: the source
distinguishes LangChainException from every other exception
(lines 178-181), and only the message is observed. -/
inductive PyErr where
  | langchain (msg : String) : PyErr
  | generic (msg : String) : PyErr

/-- Role-tagged message of the two-message conversation of line 153. -/
inductive Message where
  | system (content : String) : Message
  | human (content : String) : Message

/-- Remote model handle (the global main_llm when configured).  invoke
models main_llm.invoke(prompt).content inside the tool, returning the
response text or a raised exception; chat models
main_llm.bind_tools(tools).invoke(messages) in the request handler. -/
structure LLM where
  invoke : String → Except String String
  chat : List Message → Except PyErr ChatResponse

/-- Incoming HTTP request, as the handler observes it: request.get_json()
either yields the parsed body or raises (invalid JSON body). -/
structure Request where
  get_json : Except String Json

/-- HTTP response produced by the handler: status code and JSON body
(jsonify value).  A bare return jsonify(x) has status 200. -/
structure HttpResp where
  status : Nat
  body : Json

/-- Prompt template of apiplanner.py lines 41-77, an f-string over the
destination.  Literal braces of the JSON schema are written with their
escapes. -/
def build_itinerary_prompt (destination : String) : String :=
  "\n    Create an itinerary for " ++ destination ++ " including:\n" ++
  "    - Real elevation data in meters.\n" ++
  "    - Ensure the latitude and longitude of a location do not repeat; make small adjustments (even 0.0001) if necessary.\n" ++
  "    - Include notable landmarks.\n" ++
  "    - Make sure the coordinates are as accurate as possible\n" ++
  "    - Start the itinerary from Kathmandu if the destination is in Nepal.\n" ++
  "    \n" ++
  "    Format as JSON with this structure:\n" ++
  "    \x7b\n" ++
  "      \"itinerary\": [\n" ++
  "        \x7b\n" ++
  "          \"day\": 1,\n" ++
  "          \"location\": \"Name\",\n" ++
  "          \"elevation\": 1000,\n" ++
  "          \"coordinates\": \x7b\n" ++
  "            \"latitude\": 28.1234,\n" ++
  "            \"longitude\": 83.5678\n" ++
  "          \x7d,\n" ++
  "          \"highlight\": \"Main feature\",\n" ++
  "          \"description\": \x7b\n" ++
  "            \"trekking_duration\": \"Approximate trekking duration.\",\n" ++
  "            \"key_highlights\": [\n" ++
  "              \"Scenic views, cultural experiences, or notable landmarks.\"\n" ++
  "            ],\n" ++
  "            \"permits\": \"Information about required permits.\",\n" ++
  "            \"best_time_to_visit\": \"Best time to visit.\",\n" ++
  "            \"difficulty_level\": \"Brief overview of difficulty level.\",\n" ++
  "            \"tips\": [\n" ++
  "              \"Additional tips or recommendations for trekkers (e.g., packing essentials, acclimatization advice, pass).\"\n" ++
  "            ]\n" ++
  "          \x7d\n" ++
  "        \x7d\n" ++
  "      ]\n" ++
  "    \x7d\n" ++
  "    Do not write anything else, not even ```json or ```.\n" ++
  "    "

/-- Cleanup chain of apiplanner.py lines 85-90: remove every occurrence of
the three artifact substrings, in that order, then strip whitespace. -/
def sanitizeText (content : String) : String :=
  pyStrip (pyReplace (pyReplace (pyReplace content "```json" "")
    "```" "") "<tool-use></tool-use>" "")

/-- Body of the try block of generate_itinerary (apiplanner.py lines
78-91): invoke the model (which may raise), return the empty-response
error dict when the content strips to nothing, otherwise sanitize and
call json.loads (which may raise). -/
def generate_itinerary_try (main_llm : String → Except String String)
    (destination : String) : Except String Json :=
  match main_llm (build_itinerary_prompt destination) with
  | Except.error e => Except.error e
  | Except.ok content =>
    if pyStrip content = "" then
      Except.ok (Json.obj [("error", Json.str "Empty response received from model.")])
    else
      jsonLoads (sanitizeText content)

/-- Embedding of the tool function generate_itinerary (apiplanner.py
lines 38-93): the except-Exception handler turns any raised error into
the dict with its message. -/
def generate_itinerary (main_llm : String → Except String String)
    (destination : String) : Json :=
  match generate_itinerary_try main_llm destination with
  | Except.ok v => v
  | Except.error e => Json.obj [("error", Json.str e)]

/-- Fixed message standing for the text of the pydantic validation error
raised by the langchain tool adapter on arguments that do not fit the
tool schema; only the fact that an exception with some message is raised
matters to the source. -/
def pydantic_validation_msg : String := "1 validation error for generate_itinerary"

/-- Embedding of the langchain StructuredTool invoke adapter around
generate_itinerary: a dict argument is validated against the schema
(destination : str), a plain string input is passed as the single
argument, and anything else raises a validation error which
handle_tool_calls catches. -/
def tool_invoke (main_llm : String → Except String String) (args : Json) :
    Except String Json :=
  match args with
  | Json.obj kvs =>
    (match List.lookup "destination" kvs with
     | some (Json.str d) => Except.ok (generate_itinerary main_llm d)
     | _ => Except.error pydantic_validation_msg)
  | Json.str s => Except.ok (generate_itinerary main_llm s)
  | _ => Except.error pydantic_validation_msg

/-- Registry of available tools (apiplanner.py lines 97 and 105):
tools = [generate_itinerary] and tool_map = \x7bt.name: t\x7d. -/
def tool_map (main_llm : String → Except String String) :
    List (String × (Json → Except String Json)) :=
  [("generate_itinerary", tool_invoke main_llm)]

/-- Body of the for loop of handle_tool_calls for one tool call tc
(apiplanner.py lines 108-124).  The try block first evaluates
json.loads(tc["function"]["arguments"]); a decode failure is caught as
\x7b"tool": name, "status": "invalid_json"\x7d.  Only then is the registry
consulted.  An exception raised by the tool invocation itself is caught
as \x7b"tool": name, "error": message\x7d. -/
def processToolCall (main_llm : String → Except String String) (tc : ToolCall) : Json :=
  let func_name := tc.function.name
  match jsonLoads tc.function.arguments with
  | Except.error _ =>
    Json.obj [("tool", Json.str func_name), ("status", Json.str "invalid_json")]
  | Except.ok args =>
    match List.lookup func_name (tool_map main_llm) with
    | none => Json.obj [("tool", Json.str func_name), ("status", Json.str "not_found")]
    | some t =>
      match t args with
      | Except.error e =>
        Json.obj [("tool", Json.str func_name), ("error", Json.str e)]
      | Except.ok tool_result =>
        Json.obj [("tool", Json.str func_name), ("arguments", args),
                  ("result", tool_result)]

/-- Accumulating loop over the requested tool calls (the for loop of
apiplanner.py lines 108-124, with results as the accumulator). -/
def tool_calls_loop (main_llm : String → Except String String) :
    List Json → List ToolCall → List Json
  | results, [] => results
  | results, tc :: rest =>
    tool_calls_loop main_llm (results ++ [processToolCall main_llm tc]) rest

/-- Embedding of handle_tool_calls (apiplanner.py lines 100-126): with no
requested invocations the single no_tool_calls outcome is returned,
otherwise one outcome is collected per invocation. -/
def handle_tool_calls (main_llm : String → Except String String)
    (response : AIMessage) : List Json :=
  if response.additional_kwargs_tool_calls.isEmpty then
    [Json.obj [("status", Json.str "no_tool_calls")]]
  else
    tool_calls_loop main_llm [] response.additional_kwargs_tool_calls

/-- Embedding of the for loop of generate_itinerary_api lines 166-170:
scan the outcomes in order, answer 200 at the first one carrying the key
"result", 400 at the first one carrying the key "error", and produce no
response when the loop runs out. -/
def respond_tool_results : List Json → Option HttpResp
  | [] => none
  | r :: rest =>
    if hasKey r "result" then
      some ⟨200, Json.obj [("itinerary", dictGet r "result")]⟩
    else if hasKey r "error" then
      some ⟨400, Json.obj [("error", dictGet r "error")]⟩
    else
      respond_tool_results rest

/-- Embedding of data.get("query", "").strip() (apiplanner.py line 147):
a missing key defaults to the empty string; a body that is not a dict has
no get method, and a non-string query has no strip method, both raising
AttributeError (not a LangChainException). -/
def get_query_strip (data : Json) : Except String String :=
  match data with
  | Json.obj kvs =>
    (match List.lookup "query" kvs with
     | none => Except.ok (pyStrip "")
     | some (Json.str s) => Except.ok (pyStrip s)
     | some _ => Except.error "AttributeError: object has no attribute strip")
  | _ => Except.error "AttributeError: object has no attribute get"

/-- System persona of the conversation sent at apiplanner.py line 155. -/
def system_prompt_text : String :=
  "You are a friendly travel expert. Use tools only when asked for specific itineraries."

/-- Body of the try block of generate_itinerary_api (apiplanner.py lines
132-176).  The Except layer carries any exception escaping the block, to
be classified by the two except handlers; the Option layer records that
the tool-call branch can fall off the end of the function (returning
None in Python). -/
def api_try (main_llm : Option LLM) (req : Request) :
    Except PyErr (Option HttpResp) :=
  match main_llm with
  | none =>
    Except.ok (some ⟨503, Json.obj [("error", Json.str
      "Service temporarily unavailable. Please configure GROQ_API_KEY environment variable.")]⟩)
  | some llm =>
    match req.get_json with
    | Except.error m => Except.error (PyErr.generic m)
    | Except.ok data =>
      match get_query_strip data with
      | Except.error m => Except.error (PyErr.generic m)
      | Except.ok user_input =>
        if user_input = "" then
          Except.ok (some ⟨400, Json.obj [("error", Json.str "No query provided")]⟩)
        else
          match llm.chat [Message.system system_prompt_text,
                          Message.human user_input] with
          | Except.error e => Except.error e
          | Except.ok (ChatResponse.aiMessage response) =>
            if response.tool_calls.isEmpty then
              Except.ok (some ⟨200, Json.obj [("response", Json.str response.content)]⟩)
            else
              Except.ok (respond_tool_results (handle_tool_calls llm.invoke response))
          | Except.ok ChatResponse.other =>
            Except.ok (some ⟨500, Json.obj [("error", Json.str "Unexpected response format")]⟩)

/-- Embedding of the Flask handler generate_itinerary_api (apiplanner.py
lines 130-181), including the two except handlers: a LangChainException
becomes 500 System error, any other exception 500 Unexpected error. -/
def generate_itinerary_api (main_llm : Option LLM) (req : Request) :
    Option HttpResp :=
  match api_try main_llm req with
  | Except.ok r => r
  | Except.error (PyErr.langchain m) =>
    some ⟨500, Json.obj [("error", Json.str ("System error: " ++ m))]⟩
  | Except.error (PyErr.generic m) =>
    some ⟨500, Json.obj [("error", Json.str ("Unexpected error: " ++ m))]⟩

/-- Embedding of the startup block of apiplanner.py lines 21-35: the
handle is absent when the credential is missing, empty (falsy) or the
placeholder; otherwise the constructed client (abstracted by mk) is
installed. -/
def init_main_llm (api_key : Option String) (mk : String → LLM) : Option LLM :=
  match api_key with
  | none => none
  | some k =>
    if k = "" ∨ k = "your_groq_api_key_here" then none else some (mk k)

/-- ItineraryTool contract written from the words of spec section 4.3:
invoke the remote model on the built prompt; if the model call itself
fails, report that failure as data; if the response is empty before
sanitization, return the fixed empty-response error dict; otherwise
sanitize and parse, returning the parsed value or the parse failure as
an error dict.  Compared against generate_itinerary for claim C6. -/
def itinerary_tool_spec (main_llm : String → Except String String)
    (destination : String) : Json :=
  match main_llm (build_itinerary_prompt destination) with
  | Except.error e => Json.obj [("error", Json.str e)]
  | Except.ok content =>
    if pyStrip content = "" then
      Json.obj [("error", Json.str "Empty response received from model.")]
    else
      match jsonLoads (sanitizeText content) with
      | Except.ok v => v
      | Except.error e => Json.obj [("error", Json.str e)]

/-- Unrolling of the accumulator loop of handle_tool_calls: the collected
outcomes are the per-invocation outcomes in proposal order. -/
lemma tool_calls_loop_eq (main_llm : String → Except String String)
    (acc : List Json) (l : List ToolCall) :
    tool_calls_loop main_llm acc l = acc ++ l.map (processToolCall main_llm) := by
  induction l generalizing acc with
  | nil => simp [tool_calls_loop]
  | cons tc rest ih => simp [tool_calls_loop, ih]

/-- Characterization of the response loop: it answers for the first
outcome carrying a result key or an error key, and outcomes carrying
neither are skipped. -/
lemma respond_eq_find (results : List Json) :
    respond_tool_results results =
      match List.find? (fun r => hasKey r "result" || hasKey r "error") results with
      | none => none
      | some r =>
        if hasKey r "result" then
          some ⟨200, Json.obj [("itinerary", dictGet r "result")]⟩
        else
          some ⟨400, Json.obj [("error", dictGet r "error")]⟩ := by
  induction results with
  | nil => rfl
  | cons r rest ih =>
    by_cases h1 : hasKey r "result" = true
    · simp [respond_tool_results, List.find?, h1]
    · by_cases h2 : hasKey r "error" = true
      · simp [respond_tool_results, List.find?, h1, h2]
      · simp [respond_tool_results, List.find?,
          Bool.not_eq_true (hasKey r "result") ▸ h1,
          Bool.not_eq_true (hasKey r "error") ▸ h2, ih]

/-- When every outcome lacks both the result key and the error key, the
response loop runs out without answering. -/
lemma respond_none_of_skippable (l : List Json)
    (h : ∀ r ∈ l, hasKey r "result" = false ∧ hasKey r "error" = false) :
    respond_tool_results l = none := by
  induction l with
  | nil => rfl
  | cons r rest ih =>
    have hr := h r (by simp)
    simp [respond_tool_results, hr.1, hr.2]
    exact ih (fun x hx => h x (by simp [hx]))

/-- Unfolding of the request handler along the tool-call branch: when the
handle is configured, the body parses, the stripped query is nonempty, the
chat call returns an AIMessage whose tool_calls list is nonempty, the
handler returns exactly what the response loop makes of the dispatch
outcomes. -/
lemma api_try_tool_branch (llm : LLM) (req : Request) (data : Json)
    (q : String) (resp : AIMessage)
    (h1 : req.get_json = Except.ok data)
    (h2 : get_query_strip data = Except.ok q)
    (h3 : ¬ q = "")
    (h4 : llm.chat [Message.system system_prompt_text, Message.human q] =
      Except.ok (ChatResponse.aiMessage resp))
    (h5 : resp.tool_calls.isEmpty = false) :
    generate_itinerary_api (some llm) req =
      respond_tool_results (handle_tool_calls llm.invoke resp) := by
  unfold generate_itinerary_api api_try
  simp only [h1, h2, if_neg h3, h4, h5, Bool.false_eq_true, if_false]

/-- C1 counterexample: a batch whose dispatch outcomes are an error-bearing
outcome (schema-invalid arguments) followed by a result-bearing outcome.
A result-bearing outcome exists, yet the handler answers 400 with the
error of the first outcome, not 200 with the result, refuting the claim
that an error-bearing outcome preceding a result-bearing one still yields
200. -/
theorem C1_counterexample :
    handle_tool_calls (fun _ => Except.ok "\x7b\"itinerary\": []\x7d")
        ⟨"", [⟨⟨"generate_itinerary", "\x7b\x7d"⟩⟩,
              ⟨⟨"generate_itinerary", "\x7b\"destination\": \"Pokhara\"\x7d"⟩⟩],
             [⟨⟨"generate_itinerary", "\x7b\x7d"⟩⟩,
              ⟨⟨"generate_itinerary", "\x7b\"destination\": \"Pokhara\"\x7d"⟩⟩]⟩ =
      [Json.obj [("tool", Json.str "generate_itinerary"),
                 ("error", Json.str "1 validation error for generate_itinerary")],
       Json.obj [("tool", Json.str "generate_itinerary"),
                 ("arguments", Json.obj [("destination", Json.str "Pokhara")]),
                 ("result", Json.obj [("itinerary", Json.arr [])])]] ∧
    hasKey (Json.obj [("tool", Json.str "generate_itinerary"),
                 ("arguments", Json.obj [("destination", Json.str "Pokhara")]),
                 ("result", Json.obj [("itinerary", Json.arr [])])]) "result" = true ∧
    generate_itinerary_api
        (some ⟨fun _ => Except.ok "\x7b\"itinerary\": []\x7d",
               fun _ => Except.ok (ChatResponse.aiMessage
                 ⟨"", [⟨⟨"generate_itinerary", "\x7b\x7d"⟩⟩,
                       ⟨⟨"generate_itinerary", "\x7b\"destination\": \"Pokhara\"\x7d"⟩⟩],
                      [⟨⟨"generate_itinerary", "\x7b\x7d"⟩⟩,
                       ⟨⟨"generate_itinerary", "\x7b\"destination\": \"Pokhara\"\x7d"⟩⟩]⟩)⟩)
        ⟨Except.ok (Json.obj [("query", Json.str "Plan a 3-day trip to Pokhara")])⟩ =
      some ⟨400, Json.obj [("error", Json.str "1 validation error for generate_itinerary")]⟩ ∧
    (generate_itinerary_api
        (some ⟨fun _ => Except.ok "\x7b\"itinerary\": []\x7d",
               fun _ => Except.ok (ChatResponse.aiMessage
                 ⟨"", [⟨⟨"generate_itinerary", "\x7b\x7d"⟩⟩,
                       ⟨⟨"generate_itinerary", "\x7b\"destination\": \"Pokhara\"\x7d"⟩⟩],
                      [⟨⟨"generate_itinerary", "\x7b\x7d"⟩⟩,
                       ⟨⟨"generate_itinerary", "\x7b\"destination\": \"Pokhara\"\x7d"⟩⟩]⟩)⟩)
        ⟨Except.ok (Json.obj [("query", Json.str "Plan a 3-day trip to Pokhara")])⟩).map
        HttpResp.status ≠ some 200 :=
  ⟨rfl, rfl, rfl, by decide⟩

/-- C1 (amended): along the tool-call branch, the handler answers for the
FIRST dispatch outcome carrying a result key or an error key, in outcome
order: 200 with the itinerary when that outcome carries a result, and 400
with the message when it carries an error; an error-bearing outcome that
precedes every result-bearing outcome therefore yields 400.  Outcomes
carrying neither key are skipped, and with no qualifying outcome no
response is produced. -/
theorem C1_amended_theorem (llm : LLM) (req : Request) (data : Json)
    (q : String) (resp : AIMessage)
    (h1 : req.get_json = Except.ok data)
    (h2 : get_query_strip data = Except.ok q)
    (h3 : ¬ q = "")
    (h4 : llm.chat [Message.system system_prompt_text, Message.human q] =
      Except.ok (ChatResponse.aiMessage resp))
    (h5 : resp.tool_calls.isEmpty = false) :
    generate_itinerary_api (some llm) req =
      match List.find? (fun r => hasKey r "result" || hasKey r "error")
          (handle_tool_calls llm.invoke resp) with
      | none => none
      | some r =>
        if hasKey r "result" then
          some ⟨200, Json.obj [("itinerary", dictGet r "result")]⟩
        else
          some ⟨400, Json.obj [("error", dictGet r "error")]⟩ := by
  rw [api_try_tool_branch llm req data q resp h1 h2 h3 h4 h5, respond_eq_find]

/-- C1 witness: a single successful invocation makes the handler answer
200 with the itinerary produced by the tool. -/
theorem C1_amended_witness :
    generate_itinerary_api
        (some ⟨fun _ => Except.ok "\x7b\"itinerary\": []\x7d",
               fun _ => Except.ok (ChatResponse.aiMessage
                 ⟨"", [⟨⟨"generate_itinerary", "\x7b\"destination\": \"Pokhara\"\x7d"⟩⟩],
                      [⟨⟨"generate_itinerary", "\x7b\"destination\": \"Pokhara\"\x7d"⟩⟩]⟩)⟩)
        ⟨Except.ok (Json.obj [("query", Json.str "Plan a 3-day trip to Pokhara")])⟩ =
      some ⟨200, Json.obj [("itinerary", Json.obj [("itinerary", Json.arr [])])]⟩ :=
  (C1_amended_theorem _ _ (Json.obj [("query", Json.str "Plan a 3-day trip to Pokhara")])
    "Plan a 3-day trip to Pokhara"
    ⟨"", [⟨⟨"generate_itinerary", "\x7b\"destination\": \"Pokhara\"\x7d"⟩⟩],
         [⟨⟨"generate_itinerary", "\x7b\"destination\": \"Pokhara\"\x7d"⟩⟩]⟩
    rfl rfl (by decide) rfl rfl).trans rfl

/-- C2 counterexample: an invocation naming an unregistered capability
whose arguments are not valid JSON is recorded with status invalid_json
(the argument parse runs first), not with status not_found as the claim
states. -/
theorem C2_counterexample :
    handle_tool_calls (fun _ => Except.error "offline")
        ⟨"", [], [⟨⟨"nonexistent_tool", "not json"⟩⟩]⟩ =
      [Json.obj [("tool", Json.str "nonexistent_tool"),
                 ("status", Json.str "invalid_json")]] ∧
    handle_tool_calls (fun _ => Except.error "offline")
        ⟨"", [], [⟨⟨"nonexistent_tool", "not json"⟩⟩]⟩ ≠
      [Json.obj [("tool", Json.str "nonexistent_tool"),
                 ("status", Json.str "not_found")]] := by
  refine ⟨rfl, ?_⟩
  intro hc
  rw [show handle_tool_calls (fun _ => Except.error "offline")
        ⟨"", [], [⟨⟨"nonexistent_tool", "not json"⟩⟩]⟩ =
      [Json.obj [("tool", Json.str "nonexistent_tool"),
                 ("status", Json.str "invalid_json")]] from rfl] at hc
  simp at hc

/-- C2 (amended): dispatch parses the arguments as JSON BEFORE consulting
the registry, so for an invocation naming an unregistered capability the
recorded outcome is not_found exactly when the arguments parse, and
otherwise the argument-parse failure outcome, whose status tag is the
literal "invalid_json". -/
theorem C2_amended_theorem (main_llm : String → Except String String)
    (content : String) (tcl : List ToolCall) (name args : String)
    (h : ¬ name = "generate_itinerary") :
    handle_tool_calls main_llm ⟨content, tcl, [⟨⟨name, args⟩⟩]⟩ =
      [if parses args then
        Json.obj [("tool", Json.str name), ("status", Json.str "not_found")]
       else
        Json.obj [("tool", Json.str name), ("status", Json.str "invalid_json")]] := by
  have hb : (name == "generate_itinerary") = false := by
    simp [h]
  unfold handle_tool_calls tool_calls_loop processToolCall parses
  cases hj : jsonLoads args with
  | error e => simp [tool_calls_loop, hj]
  | ok v => simp [tool_calls_loop, hj, tool_map, List.lookup, hb]

/-- C2 witness: an unregistered capability with well-formed JSON arguments
is recorded as not_found. -/
theorem C2_amended_witness :
    handle_tool_calls (fun _ => Except.error "offline")
        ⟨"", [], [⟨⟨"mystery_tool", "\x7b\x7d"⟩⟩]⟩ =
      [Json.obj [("tool", Json.str "mystery_tool"),
                 ("status", Json.str "not_found")]] :=
  (C2_amended_theorem (fun _ => Except.error "offline") "" [] "mystery_tool"
    "\x7b\x7d" (by decide)).trans rfl

/-- C3 counterexample: a raw model text consisting only of the artifact
substrings strips to a nonempty string, so it passes the emptiness check,
and after artifact removal json.loads fails on the empty remainder: the
tool reports the JSON parse error, not the empty-response error the claim
requires. -/
theorem C3_counterexample :
    generate_itinerary (fun _ => Except.ok "```json```") "Nepal" =
      Json.obj [("error", Json.str "Expecting value")] ∧
    generate_itinerary (fun _ => Except.ok "```json```") "Nepal" ≠
      Json.obj [("error", Json.str "Empty response received from model.")] := by
  refine ⟨rfl, ?_⟩
  intro hc
  rw [show generate_itinerary (fun _ => Except.ok "```json```") "Nepal" =
      Json.obj [("error", Json.str "Expecting value")] from rfl] at hc
  simp at hc

/-- C3 (amended): the empty-response check runs BEFORE artifact removal:
whenever the raw model text strips to the empty string, the tool returns
the empty-response error dict; a text that becomes empty only after the
artifact substrings are removed instead fails with the JSON parse error
on the empty remainder. -/
theorem C3_amended_theorem (main_llm : String → Except String String)
    (d c : String)
    (h1 : main_llm (build_itinerary_prompt d) = Except.ok c)
    (h2 : pyStrip c = "") :
    generate_itinerary main_llm d =
      Json.obj [("error", Json.str "Empty response received from model.")] ∧
    generate_itinerary (fun _ => Except.ok "```json```") d =
      Json.obj [("error", Json.str "Expecting value")] := by
  constructor
  · unfold generate_itinerary generate_itinerary_try
    simp only [h1, if_pos h2]
  · rfl

/-- C3 witness: a whitespace-only model response produces the fixed
empty-response error dict. -/
theorem C3_amended_witness :
    generate_itinerary (fun _ => Except.ok "  ") "Nepal" =
      Json.obj [("error", Json.str "Empty response received from model.")] ∧
    generate_itinerary (fun _ => Except.ok "```json```") "Nepal" =
      Json.obj [("error", Json.str "Expecting value")] :=
  C3_amended_theorem (fun _ => Except.ok "  ") "Nepal" "  " rfl rfl

/-- C4 (confirmed): when every dispatch outcome carries only a status (no
result key, no error key), the tool-call branch of the handler produces
no HTTP response: the function falls off the end and returns no value. -/
theorem C4_theorem (llm : LLM) (req : Request) (data : Json)
    (q : String) (resp : AIMessage)
    (h1 : req.get_json = Except.ok data)
    (h2 : get_query_strip data = Except.ok q)
    (h3 : ¬ q = "")
    (h4 : llm.chat [Message.system system_prompt_text, Message.human q] =
      Except.ok (ChatResponse.aiMessage resp))
    (h5 : resp.tool_calls.isEmpty = false)
    (h6 : ∀ r ∈ handle_tool_calls llm.invoke resp,
      hasKey r "result" = false ∧ hasKey r "error" = false) :
    generate_itinerary_api (some llm) req = none := by
  rw [api_try_tool_branch llm req data q resp h1 h2 h3 h4 h5]
  exact respond_none_of_skippable _ h6

/-- C4 witness: a single invocation of an unregistered capability yields
only a not_found outcome, and the handler returns no response. -/
theorem C4_witness :
    generate_itinerary_api
        (some ⟨fun _ => Except.error "unused",
               fun _ => Except.ok (ChatResponse.aiMessage
                 ⟨"", [⟨⟨"unknown_tool", "\x7b\x7d"⟩⟩],
                      [⟨⟨"unknown_tool", "\x7b\x7d"⟩⟩]⟩)⟩)
        ⟨Except.ok (Json.obj [("query", Json.str "hi")])⟩ = none :=
  C4_theorem _ _ (Json.obj [("query", Json.str "hi")]) "hi"
    ⟨"", [⟨⟨"unknown_tool", "\x7b\x7d"⟩⟩], [⟨⟨"unknown_tool", "\x7b\x7d"⟩⟩]⟩
    rfl rfl (by decide) rfl rfl (by decide)

/-- C5 (confirmed): on a nonempty batch, dispatch is total (the embedding
returns a plain list, every per-invocation failure having been folded
into that invocation.s own outcome dict) and produces exactly one outcome
per proposed invocation, in proposal order, each outcome a function of
its own invocation only. -/
theorem C5_theorem (main_llm : String → Except String String)
    (content : String) (tcl : List ToolCall) (tc : ToolCall)
    (rest : List ToolCall) :
    handle_tool_calls main_llm ⟨content, tcl, tc :: rest⟩ =
      (tc :: rest).map (processToolCall main_llm) ∧
    (handle_tool_calls main_llm ⟨content, tcl, tc :: rest⟩).length =
      rest.length + 1 := by
  have h : handle_tool_calls main_llm ⟨content, tcl, tc :: rest⟩ =
      (tc :: rest).map (processToolCall main_llm) := by
    unfold handle_tool_calls
    simp [tool_calls_loop_eq]
  exact ⟨h, by rw [h]; simp⟩

/-- C6 (confirmed): the tool never raises and reports every failure as
data: generate_itinerary coincides with the spec-side contract that maps
a raised model call to its message dict, an empty (pre-sanitization)
response to the fixed empty-response dict, and a parse failure to its
message dict, for every remote-model behaviour and destination. -/
theorem C6_theorem (main_llm : String → Except String String)
    (destination : String) :
    generate_itinerary main_llm destination =
      itinerary_tool_spec main_llm destination := by
  unfold generate_itinerary generate_itinerary_try itinerary_tool_spec
  cases main_llm (build_itinerary_prompt destination) with
  | error e => rfl
  | ok content =>
    by_cases hc : pyStrip content = "" <;> simp [hc]

/-- C7 (confirmed): sanitization removes the code-fence artifacts and
parses strictly: the fenced document yields the object with a = 1, and a
malformed input is surfaced as a parse error (here the property-name
error of the strict parser) rather than repaired. -/
theorem C7_theorem :
    jsonLoads (sanitizeText "```json\n\x7b\"a\":1\x7d\n```") =
      Except.ok (Json.obj [("a", Json.num "1")]) ∧
    generate_itinerary (fun _ => Except.ok "```json\n\x7b\"a\":1\x7d\n```") "Pokhara" =
      Json.obj [("a", Json.num "1")] ∧
    parses (sanitizeText "\x7bnot valid json") = false ∧
    generate_itinerary (fun _ => Except.ok "\x7bnot valid json") "Pokhara" =
      Json.obj [("error", Json.str "Expecting property name enclosed in double quotes")] :=
  ⟨rfl, rfl, rfl, rfl⟩

/-- C8 (confirmed): a model response with no requested invocations makes
dispatch return exactly the single no_tool_calls outcome, for every model
oracle, content and parsed tool_calls attribute. -/
theorem C8_theorem (main_llm : String → Except String String)
    (content : String) (tcl : List ToolCall) :
    handle_tool_calls main_llm ⟨content, tcl, []⟩ =
      [Json.obj [("status", Json.str "no_tool_calls")]] := rfl

/-- C9 (confirmed): whenever startup leaves the handle unconfigured (the
credential is absent, empty, or the placeholder), every request receives
503 with the fixed configuration message, before any use of the request,
so the body may even be invalid. -/
theorem C9_theorem (req : Request) (mk : String → LLM) (key : Option String)
    (h : key = none ∨ key = some "" ∨ key = some "your_groq_api_key_here") :
    generate_itinerary_api (init_main_llm key mk) req =
      some ⟨503, Json.obj [("error", Json.str
        "Service temporarily unavailable. Please configure GROQ_API_KEY environment variable.")]⟩ := by
  rcases h with h | h | h <;> subst h <;> rfl

/-- C9 witness: with the placeholder credential and a request whose body
does not even parse, the response is still the fixed 503. -/
theorem C9_witness :
    generate_itinerary_api
        (init_main_llm (some "your_groq_api_key_here")
          (fun _ => ⟨fun _ => Except.error "x", fun _ => Except.ok ChatResponse.other⟩))
        ⟨Except.error "bad body"⟩ =
      some ⟨503, Json.obj [("error", Json.str
        "Service temporarily unavailable. Please configure GROQ_API_KEY environment variable.")]⟩ :=
  C9_theorem ⟨Except.error "bad body"⟩
    (fun _ => ⟨fun _ => Except.error "x", fun _ => Except.ok ChatResponse.other⟩)
    (some "your_groq_api_key_here") (Or.inr (Or.inr rfl))

/-- C10 (confirmed): sanitization is not the identity on already-valid
JSON: the document consisting of one string containing a code fence
parses directly to that string, but sanitize-then-parse removes the fence
inside the string value and returns a different value. -/
theorem C10_theorem :
    jsonLoads "\"a```b\"" = Except.ok (Json.str "a```b") ∧
    jsonLoads (sanitizeText "\"a```b\"") = Except.ok (Json.str "ab") ∧
    generate_itinerary (fun _ => Except.ok "\"a```b\"") "Pokhara" = Json.str "ab" ∧
    Json.str "a```b" ≠ Json.str "ab" :=
  ⟨rfl, rfl, rfl, by simp⟩

end Planner
